import Mathlib

/-!
Verification of the agentic prediction layer of the stocksense repository:
the adaptive learning agent (app/agents/adaptive_learning_agent.py), the
ensemble agent (app/agents/ensemble_agent.py) and the prediction coordinator
(app/agents/prediction_coordinator.py).

Python floats are modelled as exact rationals, except where a value produced
by a square root (numpy std) forces the real numbers, and except for the
sanity-validation step, where the possibility of NaN and infinite inputs is
modelled explicitly.  A Python ZeroDivisionError is modelled with an Except
value.
-/

namespace StockSense

/-- Errors a modelled Python call can raise. -/
inductive PyError where
  | zeroDivision
deriving DecidableEq, Repr

/-- Result of a Python call that can raise. -/
abbrev Py (α : Type) := Except PyError α

/-- Division of Python floats: raises ZeroDivisionError on a zero denominator. -/
def pyDiv (x y : ℚ) : Py ℚ :=
  if y = 0 then .error .zeroDivision else .ok (x / y)

/-- Arithmetic mean of a list of rationals (np.mean; 0 on the empty list,
which numpy reports as NaN but which no modelled call ever hits). -/
def meanQ (l : List ℚ) : ℚ := l.sum / l.length

/-- Trailing n elements of a list (DataFrame.tail(n) / slicing with [-n:]). -/
def lastN (n : ℕ) (l : List ℚ) : List ℚ := l.drop (l.length - n)

/-- Sample variance with one delta degree of freedom (the square of the
pandas Series.std default); 0 for lists of length at most one. -/
def sampleVar (l : List ℚ) : ℚ :=
  (l.map (fun x => (x - meanQ l) ^ 2)).sum / (l.length - 1 : ℕ)

/-- Period-over-period returns (pandas pct_change, with the leading NaN cell
dropped, as Series.std skips it). -/
def pctChange (l : List ℚ) : List ℚ :=
  List.zipWith (fun prev cur => cur / prev - 1) l (l.drop 1)

/-!
AdaptiveLearningAgent (app/agents/adaptive_learning_agent.py).

The model_performance dict has exactly the keys 'transformer' and 'lstm';
the regime_strategies dict has exactly the keys 'bull', 'bear', 'sideways'
and 'volatile'.  Both are modelled as structures plus string lookups.
-/

/-- Entry of AdaptiveLearningAgent.model_performance: error history and
current smoothed weight of one model. -/
structure ModelPerf where
  errors : List ℚ
  weights : ℚ
deriving DecidableEq, Repr

/-- Entry of AdaptiveLearningAgent.regime_strategies. -/
structure RegimeStrategy where
  model_preference : String
  confidence_boost : ℚ
deriving DecidableEq, Repr

/-- Mutable state of AdaptiveLearningAgent relevant to learning. -/
structure AdaptiveState where
  transformer : ModelPerf
  lstm : ModelPerf
  bull : RegimeStrategy
  bear : RegimeStrategy
  sideways : RegimeStrategy
  volatile : RegimeStrategy
deriving DecidableEq, Repr

/-- State installed by AdaptiveLearningAgent.__init__. -/
def initAdaptiveState : AdaptiveState :=
  { transformer := { errors := [], weights := 1 }
    lstm := { errors := [], weights := 1 }
    bull := { model_preference := "transformer", confidence_boost := 1/10 }
    bear := { model_preference := "lstm", confidence_boost := 1/20 }
    sideways := { model_preference := "ensemble", confidence_boost := 0 }
    volatile := { model_preference := "ensemble", confidence_boost := -(1/10) } }

/-- Lookup in the model_performance dict ('model_type in self.model_performance'). -/
def AdaptiveState.getPerf (s : AdaptiveState) (model_type : String) : Option ModelPerf :=
  if model_type = "transformer" then some s.transformer
  else if model_type = "lstm" then some s.lstm
  else none

/-- Store back into the model_performance dict. -/
def AdaptiveState.setPerf (s : AdaptiveState) (model_type : String) (p : ModelPerf) :
    AdaptiveState :=
  if model_type = "transformer" then { s with transformer := p }
  else if model_type = "lstm" then { s with lstm := p }
  else s

/-- Lookup in the regime_strategies dict. -/
def AdaptiveState.getStrategy (s : AdaptiveState) (regime : String) : Option RegimeStrategy :=
  if regime = "bull" then some s.bull
  else if regime = "bear" then some s.bear
  else if regime = "sideways" then some s.sideways
  else if regime = "volatile" then some s.volatile
  else none

/-- Store back into the regime_strategies dict. -/
def AdaptiveState.setStrategy (s : AdaptiveState) (regime : String) (r : RegimeStrategy) :
    AdaptiveState :=
  if regime = "bull" then { s with bull := r }
  else if regime = "bear" then { s with bear := r }
  else if regime = "sideways" then { s with sideways := r }
  else if regime = "volatile" then { s with volatile := r }
  else s

/-- AdaptiveLearningAgent.learn_from_error.  Unknown model types return with
the state untouched.  The error is abs(actual - predicted) / actual, a plain
Python float division that raises ZeroDivisionError when actual is 0 and
whose sign follows the sign of actual.  The candidate weight
1.0 / (1.0 + avg_error) divides by a numpy float64, which yields an infinity
rather than raising at the (never exercised here) pole avg_error = -1; it is
modelled as total rational division. -/
def learn_from_error (s : AdaptiveState) (model_type : String) (predicted actual : ℚ) :
    Py AdaptiveState :=
  match s.getPerf model_type with
  | none => .ok s
  | some perf => do
    let error ← pyDiv |actual - predicted| actual
    let errs0 := perf.errors ++ [error]
    let errs := if errs0.length > 100 then lastN 100 errs0 else errs0
    let recent_errors := lastN 20 errs
    let avg_error := meanQ recent_errors
    let new_weight := 1 / (1 + avg_error)
    let w := (1/10) * new_weight + (1 - 1/10) * perf.weights
    .ok (s.setPerf model_type { errors := errs, weights := w })

/-- AdaptiveLearningAgent.update_strategy_performance.  Unknown regimes
return with the state untouched; the error again divides by the raw actual. -/
def update_strategy_performance (s : AdaptiveState) (regime : String)
    (predicted actual : ℚ) : Py AdaptiveState :=
  match s.getStrategy regime with
  | none => .ok s
  | some strat => do
    let error ← pyDiv |actual - predicted| actual
    let boost0 :=
      if error < 5/100 then strat.confidence_boost + 1/100
      else if error > 15/100 then strat.confidence_boost - 1/100
      else strat.confidence_boost
    let boost := max (-(2/10)) (min (2/10) boost0)
    .ok (s.setStrategy regime { strat with confidence_boost := boost })

/-- AdaptiveLearningAgent._calculate_adaptive_weights: the weight snapshot
(transformer, lstm), divided through by the total only when the total is
positive. -/
def calculate_adaptive_weights (s : AdaptiveState) : ℚ × ℚ :=
  let t := s.transformer.weights
  let l := s.lstm.weights
  let total := t + l
  if total > 0 then (t / total, l / total) else (t, l)

/-!
AdaptiveLearningAgent._detect_market_regime.  The input is None or a
DataFrame; a DataFrame is modelled by its Close column, a list of prices in
chronological order, and anything that is not a DataFrame by none.
-/

/-- Input of _detect_market_regime: some prices for a DataFrame with the
given Close column, none for data that is not a DataFrame. -/
abbrev MarketData := Option (List ℚ)

/-- Last element of a price series (Series.iloc applied at -1). -/
def lastPrice (l : List ℚ) : ℚ := l.getLast?.getD 0

/-- AdaptiveLearningAgent._detect_market_regime.  On a frame of at least k
rows, Series.rolling(k).mean().iloc[-1] is the mean of the trailing k rows,
modelled by meanQ (lastN k recent).  The source compares the sample standard
deviation of the returns with 0.03; since both sides are nonnegative this is
equivalent to comparing the sample variance with 0.03 squared, which keeps
the definition inside the rationals. -/
def detect_market_regime (data : MarketData) : String :=
  match data with
  | none => "sideways"
  | some prices =>
    if prices.length < 50 then "sideways"
    else
      let recent := lastN 50 prices
      let sma_20 := meanQ (lastN 20 recent)
      let sma_50 := meanQ recent
      let current_price := lastPrice recent
      let volatilitySq := sampleVar (pctChange recent)
      if volatilitySq > (3/100) ^ 2 then "volatile"
      else if current_price > sma_20 ∧ sma_20 > sma_50 then "bull"
      else if current_price < sma_20 ∧ sma_20 < sma_50 then "bear"
      else "sideways"

/-- Result dict of AdaptiveLearningAgent.predict. -/
structure AdaptiveResult where
  market_regime : String
  adaptive_weights : ℚ × ℚ
  confidence_adjustment : ℚ
deriving DecidableEq, Repr

/-- AdaptiveLearningAgent.predict: regime detection (or 'sideways' when data
is None, which detect_market_regime already yields on none), strategy lookup
with the 'sideways' strategy as dict-get default, and the weight snapshot. -/
def adaptive_predict (s : AdaptiveState) (data : MarketData) : AdaptiveResult :=
  let market_regime := detect_market_regime data
  let strategy := (s.getStrategy market_regime).getD s.sideways
  { market_regime := market_regime
    adaptive_weights := calculate_adaptive_weights s
    confidence_adjustment := strategy.confidence_boost }

/-!
EnsembleAgent (app/agents/ensemble_agent.py).  The per-model backend calls
(predict_max_profit and the static confidence priors) are external
collaborators; the list of (prediction, confidence) pairs of the backends
that succeeded is an input of the modelled EnsembleAgent.predict.
-/

/-- Median of a list (np.median): midpoint of the middle elements of the
sorted list. -/
def npMedian (l : List ℚ) : ℚ :=
  let sorted := l.mergeSort (fun a b => a ≤ b)
  if l.length % 2 = 1 then (sorted.get? (l.length / 2)).getD 0
  else ((sorted.get? (l.length / 2 - 1)).getD 0 + (sorted.get? (l.length / 2)).getD 0) / 2

/-- EnsembleAgent._combine_predictions.  The configured method selects the
arithmetic mean, the confidence-weighted mean (falling back to the plain
mean when the confidences sum to 0), or the median. -/
def combine_predictions (ensemble_method : String) (predictions confidences : List ℚ) : ℚ :=
  if ensemble_method = "average" then meanQ predictions
  else if ensemble_method = "weighted_average" then
    if confidences.sum = 0 then meanQ predictions
    else (List.zipWith (fun p c => p * (c / confidences.sum)) predictions confidences).sum
  else if ensemble_method = "voting" then npMedian predictions
  else meanQ predictions

/-- Arithmetic mean over the reals (np.mean). -/
noncomputable def meanR (l : List ℝ) : ℝ := l.sum / l.length

/-- Population variance (the square of np.std, which uses zero delta degrees
of freedom). -/
noncomputable def popVar (l : List ℝ) : ℝ :=
  (l.map (fun x => (x - meanR l) ^ 2)).sum / l.length

/-- Population standard deviation (np.std). -/
noncomputable def npStd (l : List ℝ) : ℝ := Real.sqrt (popVar l)

/-- EnsembleAgent._calculate_ensemble_confidence: the mean confidence damped
by a variance penalty, never below half the mean. -/
noncomputable def calculate_ensemble_confidence (confidences : List ℝ) : ℝ :=
  if confidences = [] then 0
  else
    let mean_conf := meanR confidences
    let variance_penalty := 1 - npStd confidences / (mean_conf + 1/1000000)
    mean_conf * max (1/2) variance_penalty

/-- EnsembleAgent._calculate_prediction_interval: mean plus or minus 1.96
standard deviations. -/
noncomputable def calculate_prediction_interval (predictions : List ℝ) : ℝ × ℝ :=
  (meanR predictions - (196/100) * npStd predictions,
   meanR predictions + (196/100) * npStd predictions)

/-- Result dict of EnsembleAgent.predict. -/
structure EnsembleResult where
  prediction : ℚ
  confidence : ℝ
  prediction_interval : ℝ × ℝ
  num_models : ℕ
  uncertainty : ℝ

/-- EnsembleAgent.predict, given the (prediction, confidence) pairs obtained
from the per-model backends that did not raise.  Returns none exactly when
that list is empty, where the source raises ValueError. -/
noncomputable def ensemble_predict (ensemble_method : String)
    (modelResults : List (ℚ × ℚ)) : Option EnsembleResult :=
  let predictions := modelResults.map Prod.fst
  let confidences := modelResults.map Prod.snd
  if modelResults = [] then none
  else some
    { prediction := combine_predictions ensemble_method predictions confidences
      confidence := calculate_ensemble_confidence (confidences.map Rat.cast)
      prediction_interval := calculate_prediction_interval (predictions.map Rat.cast)
      num_models := predictions.length
      uncertainty := npStd (predictions.map Rat.cast) }

/-!
PredictionCoordinator (app/agents/prediction_coordinator.py).
-/

/-- Python float argument of the sanity validation: a finite value, NaN, or
a signed infinity. -/
inductive PyFloat where
  | finite (q : ℚ)
  | nan
  | inf
  | ninf
deriving DecidableEq, Repr

/-- Truth value of the Python comparison prediction <= 0 (false on NaN,
false on positive infinity, true on negative infinity). -/
def PyFloat.le_zero : PyFloat → Bool
  | .finite q => q ≤ 0
  | .nan => false
  | .inf => false
  | .ninf => true

/-- Truth value of np.isnan(prediction). -/
def PyFloat.isNaN : PyFloat → Bool
  | .nan => true
  | _ => false

/-- Truth value of np.isinf(prediction), true on either infinity. -/
def PyFloat.isInf : PyFloat → Bool
  | .inf => true
  | .ninf => true
  | _ => false

/-- Finiteness of the modelled float. -/
def PyFloat.isFinite : PyFloat → Bool
  | .finite _ => true
  | _ => false

/-- PredictionCoordinator._calculate_trust_score: the 0.5 / 0.3 / 0.2
weighted combination of confidence, data quality and normalized uncertainty,
clamped into the unit interval by min(1.0, max(0.0, ...)).  The function is
stated over any linear ordered field so that the same definition serves the
rational decision-gate theorems and the real-valued pipeline. -/
def calculate_trust_score {α : Type} [LinearOrderedField α]
    (confidence data_quality uncertainty : α) : α :=
  let normalized_uncertainty := 1 / (1 + uncertainty)
  min 1 (max 0
    (confidence * (1/2) + data_quality * (3/10) + normalized_uncertainty * (1/5)))

/-- PredictionCoordinator._validate_prediction: false on a non-positive
prediction, a NaN or infinite prediction, or a confidence below 0.5. -/
def validate_prediction {α : Type} [LinearOrderedField α]
    (prediction : PyFloat) (confidence : α) : Bool :=
  if prediction.le_zero then false
  else if prediction.isNaN || prediction.isInf then false
  else if confidence < 1/2 then false
  else true

/-- PredictionCoordinator._make_decision: the trust-score gate, followed by
the optional sanity validation that downgrades accept to caution and caution
to reject (a reject skips validation). -/
def make_decision {α : Type} [LinearOrderedField α] (prediction : PyFloat)
    (confidence data_quality uncertainty min_confidence : α)
    (validate : Bool) : String :=
  let trust_score := calculate_trust_score confidence data_quality uncertainty
  let decision :=
    if trust_score ≥ 3/4 then "accept"
    else if trust_score ≥ min_confidence then "caution"
    else "reject"
  if validate ∧ decision ≠ "reject" then
    if validate_prediction prediction confidence = false then
      if decision = "accept" then "caution" else "reject"
    else decision
  else decision

/-- PredictionCoordinator._generate_recommendation.  The source interpolates
the numeric confidence and uncertainty into the text; the interpolated
numbers are omitted here since nothing reads them back. -/
def generate_recommendation (decision : String) : String :=
  if decision = "accept" then "High confidence prediction. Recommended for use."
  else if decision = "caution" then "Moderate confidence prediction. Use with caution."
  else "Low confidence prediction. Not recommended for use."

/-- Value stored in a modelled Python dict. -/
inductive Value where
  | str (s : String)
  | num (q : ℚ)
  | real (r : ℝ)
  | pynone

/-- Modelled Python dict with string keys, as a key-value list. -/
abbrev PyDict := List (String × Value)

/-- Python dict.get(key, default). -/
def pyGet (d : PyDict) (key : String) (default : Value) : Value :=
  match d.find? (fun kv => kv.1 == key) with
  | some kv => kv.2
  | none => default

/-- Truth value of the Python comparison of a dict value with a string
(false when the value is not a string). -/
def Value.eqStr : Value → String → Bool
  | .str t, s => t == s
  | _, _ => false

/-- BaseAgent metadata counters of one agent. -/
structure AgentMeta where
  predictions_made : ℕ
  successful_predictions : ℕ
deriving DecidableEq, Repr

/-- BaseAgent.update_performance: counts the prediction and, when the
realized error abs(actual - predicted) / actual is at most 5 percent, the
success; the division raises on actual = 0 after the first counter has been
bumped (the partial mutation on the raising path is not modelled, no claim
reads it). -/
def update_performance (m : AgentMeta) (actual predicted : ℚ) : Py AgentMeta := do
  let made := m.predictions_made + 1
  let error_rate ← pyDiv |actual - predicted| actual
  let succ := if error_rate ≤ 5/100 then m.successful_predictions + 1
              else m.successful_predictions
  .ok { predictions_made := made, successful_predictions := succ }

/-- PredictionCoordinator.performance_metrics. -/
structure PerformanceMetrics where
  total_predictions : ℕ
  high_confidence_predictions : ℕ
  validated_predictions : ℕ
  average_confidence : ℝ

/-- Mutable state of the PredictionCoordinator and its owned agents. -/
structure CoordinatorState where
  min_confidence : ℚ
  adaptive : AdaptiveState
  ensemble_method : String
  ensemble_model_weights : Option (ℚ × ℚ)
  ensemble_meta : AgentMeta
  decision_history : List PyDict
  metrics : PerformanceMetrics

/-- Coordinator state as built by PredictionCoordinator.__init__ when the
persisted learning state is absent (load_learning_state falls back to the
defaults).  The EnsembleAgent starts with model_weights = {} and
ensemble_method = 'weighted_average'. -/
def initCoordinatorState : CoordinatorState :=
  { min_confidence := 6/10
    adaptive := initAdaptiveState
    ensemble_method := "weighted_average"
    ensemble_model_weights := none
    ensemble_meta := { predictions_made := 0, successful_predictions := 0 }
    decision_history := []
    metrics := { total_predictions := 0, high_confidence_predictions := 0,
                 validated_predictions := 0, average_confidence := 0 } }

/-- Result dict of PredictionCoordinator.predict (the fields a claim reads). -/
structure PredictResult where
  symbol : String
  prediction : ℚ
  confidence : ℝ
  base_confidence : ℝ
  confidence_adjustment : ℚ
  uncertainty : ℝ
  data_quality : ℚ
  market_regime : String
  adaptive_weights : ℚ × ℚ
  decision : String
  recommendation : String

/-- PredictionCoordinator._update_performance: bump the counters and the
running mean confidence. -/
noncomputable def update_performance_metrics (m : PerformanceMetrics)
    (decision : String) (confidence : ℝ) : PerformanceMetrics :=
  let n := m.total_predictions + 1
  { total_predictions := n
    high_confidence_predictions :=
      if decision = "accept" then m.high_confidence_predictions + 1
      else m.high_confidence_predictions
    validated_predictions :=
      if decision ≠ "reject" then m.validated_predictions + 1
      else m.validated_predictions
    average_confidence := (m.average_confidence * ((n : ℝ) - 1) + confidence) / n }

/-- PredictionCoordinator._log_decision_record: the audit record appended to
decision_history, holding exactly the keys timestamp, symbol, prediction,
confidence, decision and recommendation copied out of the result dict (the
wall-clock timestamp string is outside the model).  The history is then
truncated to its most recent 1000 records. -/
def log_decision_record (history : List PyDict) (r : PredictResult) : List PyDict :=
  let record : PyDict :=
    [("timestamp", .str ""),
     ("symbol", .str r.symbol),
     ("prediction", .num r.prediction),
     ("confidence", .real r.confidence),
     ("decision", .str r.decision),
     ("recommendation", .str r.recommendation)]
  let h := history ++ [record]
  if h.length > 1000 then h.drop (h.length - 1000) else h

/-- PredictionCoordinator.predict.  The data enrichment agent and the
per-model forecast backends are external collaborators: their outputs, the
quality score with the enriched series and the per-model (prediction,
confidence) pairs, are inputs.  Returns none exactly when the ensemble
raises its no-prediction-available ValueError, which the coordinator does
not catch. -/
noncomputable def coordinator_predict (st : CoordinatorState) (symbol : String)
    (data_quality : ℚ) (enriched_data : MarketData)
    (modelResults : List (ℚ × ℚ)) (validate : Bool) :
    Option (PredictResult × CoordinatorState) :=
  let adaptive_result := adaptive_predict st.adaptive enriched_data
  let st1 := { st with ensemble_model_weights := some adaptive_result.adaptive_weights }
  match ensemble_predict st.ensemble_method modelResults with
  | none => none
  | some er =>
    let confidence : ℝ :=
      min 1 (max 0 (er.confidence + (adaptive_result.confidence_adjustment : ℝ)))
    let decision := make_decision (.finite er.prediction) confidence
      (data_quality : ℝ) er.uncertainty (st.min_confidence : ℝ) validate
    let result : PredictResult :=
      { symbol := symbol
        prediction := er.prediction
        confidence := confidence
        base_confidence := er.confidence
        confidence_adjustment := adaptive_result.confidence_adjustment
        uncertainty := er.uncertainty
        data_quality := data_quality
        market_regime := adaptive_result.market_regime
        adaptive_weights := adaptive_result.adaptive_weights
        decision := decision
        recommendation := generate_recommendation decision }
    let st2 := { st1 with
      metrics := update_performance_metrics st1.metrics decision confidence,
      decision_history := log_decision_record st1.decision_history result }
    some (result, st2)

/-- PredictionCoordinator.update_with_actual: the feedback entry point.
Updates the EnsembleAgent performance tracker, feeds learn_from_error for
both tracked models, feeds the regime-strategy updater with the
market_regime read out of the most recent decision-history record when that
record's symbol matches, and reports (second component) whether this call
triggered a learning-state save, which the source keys on
total_predictions being divisible by 10. -/
def update_with_actual (st : CoordinatorState) (symbol : String)
    (predicted actual : ℚ) : Py (CoordinatorState × Bool) := do
  let emeta ← update_performance st.ensemble_meta actual predicted
  let a1 ← learn_from_error st.adaptive "transformer" predicted actual
  let a2 ← learn_from_error a1 "lstm" predicted actual
  let a3 ←
    match st.decision_history.getLast? with
    | none => (pure a2 : Py AdaptiveState)
    | some last_decision =>
      if (pyGet last_decision "symbol" .pynone).eqStr symbol then
        match pyGet last_decision "market_regime" (.str "sideways") with
        | .str market_regime => update_strategy_performance a2 market_regime predicted actual
        | _ => (pure a2 : Py AdaptiveState)
      else (pure a2 : Py AdaptiveState)
  let saved := st.metrics.total_predictions % 10 = 0
  let _error_rate ← pyDiv |actual - predicted| actual
  .ok ({ st with ensemble_meta := emeta, adaptive := a3 }, saved)

/-!
Concrete states and inputs used by the claim theorems and witnesses.
-/

/-- Learner state in which both stored model weights are zero (reachable
from the initial state by two learn_from_error calls with actual = -9,
as the counterexample theorem shows). -/
def zeroWeightAdaptiveState : AdaptiveState :=
  { initAdaptiveState with
    transformer := { errors := [-(10/9)], weights := 0 }
    lstm := { errors := [-(10/9)], weights := 0 } }

/-- Coordinator state whose learner weights the transformer strongly:
normalized snapshot (9/10, 1/10) instead of the initial (1/2, 1/2). -/
def highTransformerState : CoordinatorState :=
  { initCoordinatorState with
    adaptive := { initAdaptiveState with transformer := { errors := [], weights := 9 } } }

/-- Price series of 50 observations doubling each period: low (zero) return
variance, last price above the 20-period mean, which is above the 50-period
mean, so the regime detector classifies it as bull. -/
def bullSeries : List ℚ :=
  [1, 2, 2^2, 2^3, 2^4, 2^5, 2^6, 2^7, 2^8, 2^9,
   2^10, 2^11, 2^12, 2^13, 2^14, 2^15, 2^16, 2^17, 2^18, 2^19,
   2^20, 2^21, 2^22, 2^23, 2^24, 2^25, 2^26, 2^27, 2^28, 2^29,
   2^30, 2^31, 2^32, 2^33, 2^34, 2^35, 2^36, 2^37, 2^38, 2^39,
   2^40, 2^41, 2^42, 2^43, 2^44, 2^45, 2^46, 2^47, 2^48, 2^49]

/-!
Helper lemmas about trailing-window extraction.
-/

/-- Taking the trailing m elements of the trailing n elements is taking the
trailing m elements, whenever m is at most n. -/
theorem lastN_lastN (m n : ℕ) (l : List ℚ) (h : m ≤ n) :
    lastN m (lastN n l) = lastN m l := by
  simp only [lastN, List.length_drop, List.drop_drop]
  congr 1
  omega

/-- Dropping leading elements of a list keeps its last element, as long as
at least one element survives. -/
theorem getLast?_lastN (n : ℕ) (l : List ℚ) (hn : 0 < n) :
    (lastN n l).getLast? = l.getLast? := by
  cases l with
  | nil => simp [lastN]
  | cons a as =>
    rw [lastN, List.getLast?_eq_getElem?, List.getLast?_eq_getElem?,
      List.getElem?_drop, List.length_drop]
    congr 1
    simp only [List.length_cons]
    omega

/-!
Claim theorems.
-/

/-- C3: the claim says record_error skips on actual = 0 and appends the
never-negative error abs(actual - predicted) / abs(actual).  The code
divides by the raw actual instead: at actual = 0 it raises
ZeroDivisionError rather than skipping, and at actual = -1 with
predicted = 1 it appends the negative error -2. -/
theorem learn_from_error_zero_and_negative_actual :
    learn_from_error initAdaptiveState "transformer" 100 0 = .error .zeroDivision ∧
    (learn_from_error initAdaptiveState "transformer" 1 (-1)).map
      (fun s => s.transformer.errors) = .ok [-2] := by
  constructor
  · simp [learn_from_error, AdaptiveState.getPerf, pyDiv, Bind.bind, Except.bind,
      initAdaptiveState]
  · norm_num [learn_from_error, AdaptiveState.getPerf, AdaptiveState.setPerf,
      pyDiv, Bind.bind, Except.bind, Except.map, initAdaptiveState, lastN, meanQ]

/-- C10: learn_from_error on a model type outside the tracked set, here any
string other than 'transformer' and 'lstm', returns without raising and
with the learner state unchanged, whatever predicted and actual are (the
division is never reached, so even actual = 0 does not raise). -/
theorem learn_from_error_unknown_model_noop (s : AdaptiveState) (model_type : String)
    (predicted actual : ℚ)
    (ht : model_type ≠ "transformer") (hl : model_type ≠ "lstm") :
    learn_from_error s model_type predicted actual = .ok s := by
  simp [learn_from_error, AdaptiveState.getPerf, ht, hl]

/-- Witness for C10 at the untracked model type 'ensemble' with actual = 0. -/
theorem learn_from_error_unknown_model_noop_witness :
    ("ensemble" ≠ "transformer") ∧ ("ensemble" ≠ "lstm") ∧
    learn_from_error initAdaptiveState "ensemble" 100 0 = .ok initAdaptiveState :=
  ⟨by decide, by decide,
   learn_from_error_unknown_model_noop initAdaptiveState "ensemble" 100 0
     (by decide) (by decide)⟩

/-- C4, counterexample: from the initial learner state, one
learn_from_error call per model with predicted = 1 and actual = -9 drives
both stored weights to exactly 0 (the recorded error is -10/9, the
candidate weight 1 / (1 - 10/9) = -9, and the smoothed weight
0.1 * (-9) + 0.9 * 1 = 0).  In this reachable all-zero state the snapshot
is (0, 0): its weights sum to 0, not 1, and it is not the uniform
(1/2, 1/2) the claim promises for the degenerate state. -/
theorem adaptive_weights_all_zero_reachable :
    ((learn_from_error initAdaptiveState "transformer" 1 (-9)).bind
        (fun s1 => learn_from_error s1 "lstm" 1 (-9))).map
      (fun s2 => (s2.transformer.weights, s2.lstm.weights,
                  calculate_adaptive_weights s2))
      = .ok (0, 0, (0, 0)) := by
  simp only [learn_from_error, AdaptiveState.getPerf, AdaptiveState.setPerf,
    pyDiv, Bind.bind, Except.bind, Except.map, initAdaptiveState, lastN, meanQ]
  simp
  norm_num [calculate_adaptive_weights]

/-- C4, amended: when both stored weights are nonnegative and their total is
positive, the snapshot has no negative weight and sums exactly to 1; in the
all-zero state the snapshot is the raw all-zero pair, not uniform. -/
theorem calculate_adaptive_weights_amended (s : AdaptiveState) :
    (0 ≤ s.transformer.weights → 0 ≤ s.lstm.weights →
      0 < s.transformer.weights + s.lstm.weights →
      0 ≤ (calculate_adaptive_weights s).1 ∧ 0 ≤ (calculate_adaptive_weights s).2 ∧
        (calculate_adaptive_weights s).1 + (calculate_adaptive_weights s).2 = 1) ∧
    (s.transformer.weights = 0 → s.lstm.weights = 0 →
      calculate_adaptive_weights s = (0, 0)) := by
  constructor
  · intro ht hl hpos
    simp only [calculate_adaptive_weights, gt_iff_lt, if_pos hpos]
    refine ⟨div_nonneg ht hpos.le, div_nonneg hl hpos.le, ?_⟩
    rw [div_add_div_same, div_self hpos.ne']
  · intro h1 h2
    simp [calculate_adaptive_weights, h1, h2]

/-- Witness for C4's amended theorem: the initial state satisfies the
positivity hypotheses and yields the uniform snapshot summing to 1, and the
reachable all-zero state yields the all-zero snapshot. -/
theorem calculate_adaptive_weights_amended_witness :
    (0 ≤ (calculate_adaptive_weights initAdaptiveState).1 ∧
     0 ≤ (calculate_adaptive_weights initAdaptiveState).2 ∧
     (calculate_adaptive_weights initAdaptiveState).1 +
       (calculate_adaptive_weights initAdaptiveState).2 = 1) ∧
    calculate_adaptive_weights zeroWeightAdaptiveState = (0, 0) :=
  ⟨(calculate_adaptive_weights_amended initAdaptiveState).1
      (by norm_num [initAdaptiveState]) (by norm_num [initAdaptiveState])
      (by norm_num [initAdaptiveState]),
   (calculate_adaptive_weights_amended zeroWeightAdaptiveState).2
      (by norm_num [zeroWeightAdaptiveState, initAdaptiveState])
      (by norm_num [zeroWeightAdaptiveState, initAdaptiveState])⟩

/-- C9: on a nonempty list of per-model confidences, all nonnegative as
confidences are, the ensemble confidence is the mean confidence times
max(0.5, 1 - std / (mean + 1e-6)), and is therefore at least half the mean
confidence. -/
theorem ensemble_confidence_at_least_half_mean (confidences : List ℝ)
    (hne : confidences ≠ []) (hnn : ∀ c ∈ confidences, 0 ≤ c) :
    calculate_ensemble_confidence confidences =
      meanR confidences *
        max (1/2) (1 - npStd confidences / (meanR confidences + 1/1000000)) ∧
    meanR confidences / 2 ≤ calculate_ensemble_confidence confidences := by
  have hm : 0 ≤ meanR confidences := by
    have := List.sum_nonneg hnn
    unfold meanR
    positivity
  refine ⟨by simp [calculate_ensemble_confidence, hne], ?_⟩
  simp only [calculate_ensemble_confidence, if_neg hne]
  calc meanR confidences / 2 = meanR confidences * (1/2) := by ring
    _ ≤ meanR confidences *
          max (1/2) (1 - npStd confidences / (meanR confidences + 1/1000000)) :=
        mul_le_mul_of_nonneg_left (le_max_left _ _) hm

/-- Witness for C9 at the confidence pair (0.75, 0.70). -/
theorem ensemble_confidence_at_least_half_mean_witness :
    ([(3:ℝ)/4, 7/10] ≠ []) ∧
    meanR [(3:ℝ)/4, 7/10] / 2 ≤ calculate_ensemble_confidence [(3:ℝ)/4, 7/10] :=
  ⟨by simp,
   (ensemble_confidence_at_least_half_mean [(3:ℝ)/4, 7/10] (by simp)
      (by intro c hc; simp only [List.mem_cons, List.not_mem_nil, or_false] at hc
          rcases hc with h | h <;> rw [h] <;> norm_num)).2⟩

/-- C5: the trust score is the 0.5 / 0.3 / 0.2 combination of confidence,
data quality and 1 / (1 + uncertainty), clamped to the unit interval, and
the pre-validation decision is accept exactly on trust_score at least 3/4
(boundary inclusive), caution exactly on min_confidence up to but excluding
3/4, and reject otherwise.  Uncertainty is a standard deviation, hence
nonnegative. -/
theorem trust_gate_spec (p : PyFloat) (c q u m : ℚ) (hu : 0 ≤ u) :
    calculate_trust_score c q u =
      min 1 (max 0 ((1/2) * c + (3/10) * q + (1/5) * (1 / (1 + u)))) ∧
    0 ≤ calculate_trust_score c q u ∧ calculate_trust_score c q u ≤ 1 ∧
    (make_decision p c q u m false = "accept" ↔
      3/4 ≤ calculate_trust_score c q u) ∧
    (make_decision p c q u m false = "caution" ↔
      m ≤ calculate_trust_score c q u ∧ calculate_trust_score c q u < 3/4) ∧
    (make_decision p c q u m false = "reject" ↔
      calculate_trust_score c q u < 3/4 ∧ calculate_trust_score c q u < m) := by
  refine ⟨?_, le_min (by norm_num) (le_max_left _ _), min_le_left _ _, ?_, ?_, ?_⟩
  · unfold calculate_trust_score
    ring_nf
  · unfold make_decision
    by_cases h1 : (3:ℚ)/4 ≤ calculate_trust_score c q u
    · simp [ge_iff_le, h1]
    · by_cases h2 : m ≤ calculate_trust_score c q u <;> simp [ge_iff_le, h1, h2]
  · unfold make_decision
    by_cases h1 : (3:ℚ)/4 ≤ calculate_trust_score c q u
    · simp [ge_iff_le, h1]
    · by_cases h2 : m ≤ calculate_trust_score c q u
      · simp [ge_iff_le, h1, h2]
        exact not_le.mp h1
      · simp [ge_iff_le, h1, h2]
  · unfold make_decision
    by_cases h1 : (3:ℚ)/4 ≤ calculate_trust_score c q u
    · simp [ge_iff_le, h1]
    · by_cases h2 : m ≤ calculate_trust_score c q u
      · simp [ge_iff_le, h1, h2]
      · simp [ge_iff_le, h1, h2]
        exact ⟨not_le.mp h1, not_le.mp h2⟩

/-- Witness for C5 at confidence 0.9, data quality 0.9, uncertainty 0 and
the default minimum confidence 0.6. -/
theorem trust_gate_spec_witness :
    (0:ℚ) ≤ 0 ∧
    (make_decision (.finite 100) ((9:ℚ)/10) (9/10) 0 (6/10) false = "accept" ↔
      3/4 ≤ calculate_trust_score ((9:ℚ)/10) (9/10) 0) :=
  ⟨le_refl 0,
   (trust_gate_spec (.finite 100) ((9:ℚ)/10) (9/10) 0 (6/10) (le_refl 0)).2.2.2.1⟩

/-- C7: with validation enabled the sanity check never raises (the modelled
function is total) and acts on the tier exactly as the claim says: a passing
prediction leaves the pre-validation decision unchanged, a failing one
demotes accept to caution and caution to reject, and reject stays reject
(validation is skipped there); and the check fails exactly on a non-finite
prediction, a prediction at most 0, or a confidence below 0.5. -/
theorem validation_demotes_exactly_one_tier (p : PyFloat) (c q u m : ℚ) :
    make_decision p c q u m true =
      (if validate_prediction p c = true then make_decision p c q u m false
       else if make_decision p c q u m false = "accept" then "caution"
       else if make_decision p c q u m false = "caution" then "reject"
       else make_decision p c q u m false) ∧
    (validate_prediction p c = false ↔
      p.isFinite = false ∨ p.le_zero = true ∨ c < 1/2) := by
  constructor
  · unfold make_decision
    by_cases hv : validate_prediction p c = true <;>
      by_cases h1 : (3:ℚ)/4 ≤ calculate_trust_score c q u <;>
      by_cases h2 : m ≤ calculate_trust_score c q u <;>
      simp [ge_iff_le, h1, h2, hv]
  · cases p with
    | finite q =>
      by_cases hq : q ≤ 0 <;> by_cases hc : c < 1/2 <;>
        simp [validate_prediction, PyFloat.le_zero, PyFloat.isNaN,
          PyFloat.isInf, PyFloat.isFinite, hq, hc]
    | nan =>
      simp [validate_prediction, PyFloat.le_zero, PyFloat.isNaN,
        PyFloat.isInf, PyFloat.isFinite]
    | inf =>
      simp [validate_prediction, PyFloat.le_zero, PyFloat.isNaN,
        PyFloat.isInf, PyFloat.isFinite]
    | ninf =>
      simp [validate_prediction, PyFloat.le_zero, PyFloat.isNaN,
        PyFloat.isInf, PyFloat.isFinite]

/-- C8: regime detection is a pure function of the input series; anything
that is not a price series of at least 50 observations is sideways, and on
at least 50 observations the first matching rule over the trailing 50
observations wins in the order volatile (squared return volatility above
0.03 squared, equivalently sample standard deviation above 3 percent), then
bull (price above SMA20 above SMA50), then bear (price below SMA20 below
SMA50), then sideways.  SMA20 and SMA50 are the means of the trailing 20
and trailing 50 observations of the full series. -/
theorem detect_market_regime_spec :
    detect_market_regime none = "sideways" ∧
    (∀ prices : List ℚ, prices.length < 50 →
      detect_market_regime (some prices) = "sideways") ∧
    (∀ prices : List ℚ, 50 ≤ prices.length →
      detect_market_regime (some prices) =
        if sampleVar (pctChange (lastN 50 prices)) > (3/100) ^ 2 then "volatile"
        else if lastPrice prices > meanQ (lastN 20 prices) ∧
            meanQ (lastN 20 prices) > meanQ (lastN 50 prices) then "bull"
        else if lastPrice prices < meanQ (lastN 20 prices) ∧
            meanQ (lastN 20 prices) < meanQ (lastN 50 prices) then "bear"
        else "sideways") := by
  refine ⟨rfl, ?_, ?_⟩
  · intro prices h
    simp [detect_market_regime, h]
  · intro prices h
    have h20 : lastN 20 (lastN 50 prices) = lastN 20 prices :=
      lastN_lastN 20 50 prices (by norm_num)
    have hlp : lastPrice (lastN 50 prices) = lastPrice prices := by
      unfold lastPrice
      rw [getLast?_lastN 50 prices (by norm_num)]
    simp only [detect_market_regime, if_neg (not_lt.mpr h), h20, hlp]

/-- Witness for C8: a one-element series is sideways by the short-input
rule, and a flat 50-element series satisfies the cascade equation. -/
theorem detect_market_regime_spec_witness :
    ([(1:ℚ)].length < 50 ∧ detect_market_regime (some [1]) = "sideways") ∧
    (50 ≤ (List.replicate 50 (1:ℚ)).length ∧
      detect_market_regime (some (List.replicate 50 (1:ℚ))) =
        if sampleVar (pctChange (lastN 50 (List.replicate 50 (1:ℚ)))) >
            (3/100) ^ 2 then "volatile"
        else if lastPrice (List.replicate 50 (1:ℚ)) >
              meanQ (lastN 20 (List.replicate 50 (1:ℚ))) ∧
            meanQ (lastN 20 (List.replicate 50 (1:ℚ))) >
              meanQ (lastN 50 (List.replicate 50 (1:ℚ))) then "bull"
        else if lastPrice (List.replicate 50 (1:ℚ)) <
              meanQ (lastN 20 (List.replicate 50 (1:ℚ))) ∧
            meanQ (lastN 20 (List.replicate 50 (1:ℚ))) <
              meanQ (lastN 50 (List.replicate 50 (1:ℚ))) then "bear"
        else "sideways") :=
  ⟨⟨by norm_num, detect_market_regime_spec.2.1 [1] (by norm_num)⟩,
   ⟨by simp, detect_market_regime_spec.2.2 (List.replicate 50 (1:ℚ)) (by simp)⟩⟩

/-- C1: the coordinator writes the learner's normalized weight snapshot into
the ensemble agent's model_weights attribute, but the combination step never
reads that attribute: it weights the model predictions by their
self-reported confidences alone.  Two coordinator states whose learner
snapshots differ, (1/2, 1/2) against (9/10, 1/10), produce the identical
combined prediction 3040/29 on the same model results [(100, 0.75),
(110, 0.70)], so the combined prediction is not a function of the learner
weights as the claim says. -/
theorem predict_combination_ignores_learner_weights :
    calculate_adaptive_weights initCoordinatorState.adaptive = (1/2, 1/2) ∧
    calculate_adaptive_weights highTransformerState.adaptive = (9/10, 1/10) ∧
    (coordinator_predict initCoordinatorState "SYM" 1 none
        [(100, 3/4), (110, 7/10)] true).map (fun r => r.1.prediction) =
      some (3040/29) ∧
    (coordinator_predict highTransformerState "SYM" 1 none
        [(100, 3/4), (110, 7/10)] true).map (fun r => r.1.prediction) =
      some (3040/29) := by
  refine ⟨?_, ?_, ?_, ?_⟩ <;>
    norm_num [calculate_adaptive_weights, coordinator_predict, adaptive_predict,
      ensemble_predict, combine_predictions, detect_market_regime,
      initCoordinatorState, initAdaptiveState, highTransformerState,
      AdaptiveState.getStrategy, meanQ] <;>
    simp

/-- Helper: learn_from_error never raises when actual is nonzero. -/
theorem learn_from_error_ok (s : AdaptiveState) (model_type : String)
    (predicted actual : ℚ) (ha : actual ≠ 0) :
    ∃ s', learn_from_error s model_type predicted actual = .ok s' := by
  unfold learn_from_error
  cases h : s.getPerf model_type <;>
    simp [pyDiv, ha, Bind.bind, Except.bind]

/-- Helper: update_strategy_performance never raises when actual is nonzero. -/
theorem update_strategy_performance_ok (s : AdaptiveState) (regime : String)
    (predicted actual : ℚ) (ha : actual ≠ 0) :
    ∃ s', update_strategy_performance s regime predicted actual = .ok s' := by
  unfold update_strategy_performance
  cases h : s.getStrategy regime <;>
    simp [pyDiv, ha, Bind.bind, Except.bind]

/-- Helper: the doubling 50-observation price series is classified bull
(zero return variance, price above SMA20 above SMA50). -/
theorem detect_bullSeries : detect_market_regime (some bullSeries) = "bull" := by
  norm_num [detect_market_regime, bullSeries, lastN, meanQ, sampleVar, pctChange,
    lastPrice]

/-- C6, counterexample: on the freshly constructed coordinator, before any
predict() call, the very first feedback call already triggers a
learning-state save, because the save is keyed on total_predictions, still
0, being divisible by 10.  The claim says only every 10th feedback call
saves. -/
theorem first_feedback_call_triggers_save :
    (update_with_actual initCoordinatorState "SYM" 100 101).map (fun out => out.2) =
      .ok true := by
  have h101 : ((101:ℚ) = 0) = False := by norm_num
  simp [update_with_actual, update_performance, learn_from_error,
    AdaptiveState.getPerf, AdaptiveState.setPerf, pyDiv, Bind.bind, Except.bind, pure,
    Except.pure, Except.map, initCoordinatorState, initAdaptiveState, lastN, meanQ,
    h101]

/-- C6, amended: a feedback call triggers a save exactly when the
coordinator's total_predictions counter is divisible by 10 at the time of
the call; feedback leaves that counter unchanged while each successful
predict() increments it by one, so the cadence is governed by the predict()
count, not the feedback count. -/
theorem save_cadence_depends_on_predict_count :
    (∀ (st : CoordinatorState) (sym : String) (predicted actual : ℚ),
      actual ≠ 0 →
      (update_with_actual st sym predicted actual).map
          (fun out => (out.2, out.1.metrics.total_predictions)) =
        .ok (decide (st.metrics.total_predictions % 10 = 0),
             st.metrics.total_predictions)) ∧
    (∀ (st : CoordinatorState) (sym : String) (dq : ℚ) (ed : MarketData)
        (mr : List (ℚ × ℚ)) (v : Bool),
      mr ≠ [] →
      (coordinator_predict st sym dq ed mr v).map
          (fun out => out.2.metrics.total_predictions) =
        some (st.metrics.total_predictions + 1)) := by
  constructor
  · intro st sym predicted actual ha
    obtain ⟨s1, hs1⟩ := learn_from_error_ok st.adaptive "transformer" predicted actual ha
    obtain ⟨s2, hs2⟩ := learn_from_error_ok s1 "lstm" predicted actual ha
    rcases hl : st.decision_history.getLast? with _ | last
    · simp [update_with_actual, update_performance, pyDiv, ha, Bind.bind,
        Except.bind, pure, Except.pure, Except.map, hs1, hs2, hl]
    · rcases hv : pyGet last "market_regime" (.str "sideways") with s' | q' | r' | _
      · obtain ⟨s3, hs3⟩ := update_strategy_performance_ok s2 s' predicted actual ha
        by_cases hsym : (pyGet last "symbol" .pynone).eqStr sym = true <;>
          simp [update_with_actual, update_performance, pyDiv, ha, Bind.bind,
            Except.bind, pure, Except.pure, Except.map, hs1, hs2, hl, hv, hs3, hsym]
      all_goals
        by_cases hsym : (pyGet last "symbol" .pynone).eqStr sym = true <;>
          simp [update_with_actual, update_performance, pyDiv, ha, Bind.bind,
            Except.bind, pure, Except.pure, Except.map, hs1, hs2, hl, hv, hsym]
  · intro st sym dq ed mr v hmr
    simp only [coordinator_predict, ensemble_predict, if_neg hmr]
    simp [update_performance_metrics]

/-- Witness for C6's amended theorem at the initial coordinator state. -/
theorem save_cadence_depends_on_predict_count_witness :
    ((101:ℚ) ≠ 0) ∧
    (update_with_actual initCoordinatorState "SYM" 100 101).map
        (fun out => (out.2, out.1.metrics.total_predictions)) =
      .ok (decide (initCoordinatorState.metrics.total_predictions % 10 = 0),
           initCoordinatorState.metrics.total_predictions) ∧
    ([((100:ℚ), (3:ℚ)/4)] ≠ []) ∧
    (coordinator_predict initCoordinatorState "SYM" 1 none [(100, 3/4)] true).map
        (fun out => out.2.metrics.total_predictions) =
      some (initCoordinatorState.metrics.total_predictions + 1) :=
  ⟨by norm_num,
   save_cadence_depends_on_predict_count.1 initCoordinatorState "SYM" 100 101
     (by norm_num),
   by simp,
   save_cadence_depends_on_predict_count.2 initCoordinatorState "SYM" 1 none
     [(100, 3/4)] true (by simp)⟩

/-- C2: the decision-history record holds only the keys timestamp, symbol,
prediction, confidence, decision and recommendation, so on matching
feedback the coordinator reads market_regime out of it with the dict-get
default 'sideways' and always updates the sideways strategy.  Concretely: a
predict() on the doubling price series is classified bull, yet the
matching-symbol feedback with a small error (1/101 below 5 percent) bumps
the sideways strategy's confidence boost from 0 to 1/100 and leaves the
bull strategy's boost at its initial 1/10, while the claim says the bull
strategy would be the one updated. -/
theorem feedback_updates_sideways_strategy_despite_bull :
    (coordinator_predict initCoordinatorState "TCS" 1 (some bullSeries)
        [(100, 3/4), (110, 7/10)] true).map (fun r => r.1.market_regime) =
      some "bull" ∧
    (coordinator_predict initCoordinatorState "TCS" 1 (some bullSeries)
        [(100, 3/4), (110, 7/10)] true).map
        (fun r => (update_with_actual r.2 "TCS" 100 101).map
          (fun out => (out.1.adaptive.sideways.confidence_boost,
                       out.1.adaptive.bull.confidence_boost))) =
      some (.ok (1/100, 1/10)) := by
  have h101 : ((101:ℚ) = 0) = False := by norm_num
  have herr : (|(101:ℚ) - 100| / 101 < 5/100) = True := by norm_num
  constructor
  · simp [coordinator_predict, adaptive_predict, ensemble_predict, detect_bullSeries,
      initCoordinatorState]
  · simp [coordinator_predict, adaptive_predict, ensemble_predict, detect_bullSeries,
      log_decision_record, update_with_actual, update_performance, learn_from_error,
      update_strategy_performance, AdaptiveState.getPerf, AdaptiveState.setPerf,
      AdaptiveState.getStrategy, AdaptiveState.setStrategy, pyGet, Value.eqStr,
      pyDiv, Bind.bind, Except.bind, pure, Except.pure, Except.map,
      initCoordinatorState, initAdaptiveState, lastN, meanQ, h101, herr]
    norm_num

end StockSense
